import Mathlib

/-!
Shallow embedding of `werkzeug/contrib/sessions.py` (the session container,
the session stores and the session middleware) and verification of the
specification's claims about it.

Conventions of the embedding:
* Python dicts are association lists `List (String × PyVal)`; `__setitem__`
  replaces the value in place when the key is present and appends otherwise,
  which preserves the dict's extensional behaviour.
* Stateful methods become explicit state passing: filesystem-touching store
  methods take and return a filesystem value `FS`.
* Fallible dict operations return `Except PyErr _` next to the post-state,
  mirroring a Python call that may raise after mutating the receiver.
* `sha1(...).hexdigest()` is an external library call (hashlib); it is modelled
  at its interface: a 160-bit digest value rendered as 40 lowercase hex
  characters.  The digest value (a function of salt, wall clock and entropy)
  is abstracted as a `Nat` parameter threaded to every key-generating call.
* `cPickle.dump`/`load` is the injected binary codec of the spec; a file's
  content is modelled as the mapping it deserialises to, i.e. the codec is
  modelled by its round-trip property.
-/

/-- Values stored in a session mapping.  The claims do not depend on the value
type, so two representative constructors suffice. -/
inductive PyVal where
  | str : String → PyVal
  | int : Int → PyVal
deriving DecidableEq, Repr

/-- A Python dict with string keys, as an association list. -/
abbrev Entries := List (String × PyVal)

/-- First binding of a key in an association list (Python `d[k]` lookup). -/
def alookup {α : Type} : List (String × α) → String → Option α
  | [], _ => none
  | (k, v) :: rest, key => if k = key then some v else alookup rest key

/-- Replace the binding of a key in place, or append it (Python `d[k] = v`). -/
def aset {α : Type} : List (String × α) → String → α → List (String × α)
  | [], key, v => [(key, v)]
  | (k, w) :: rest, key, v =>
    if k = key then (key, v) :: rest else (k, w) :: aset rest key v

/-- Remove the binding of a key if present (Python `del d[k]` / `d.pop(k)`). -/
def aerase {α : Type} : List (String × α) → String → List (String × α)
  | [], _ => []
  | (k, w) :: rest, key =>
    if k = key then rest else (k, w) :: aerase rest key

/-- Exceptions the embedded dict operations can raise. -/
inductive PyErr where
  | keyError
deriving DecidableEq, Repr

/-- `ModificationTrackingDict`: a dict plus a `modified` flag (one of its
`__slots__`).  `__init__` fills the dict through plain `dict.__init__` and
then sets `modified = False`. -/
structure ModificationTrackingDict where
  entries : Entries
  modified : Bool
deriving DecidableEq, Repr

/-- `ModificationTrackingDict.copy`: the source allocates a fresh instance with
`object.__new__(self.__class__)` — which initialises the dict payload empty —
and then copies over exactly the `__slots__` attributes (here `modified`).
The key/value pairs are not copied. -/
def ModificationTrackingDict.copy (m : ModificationTrackingDict) :
    ModificationTrackingDict :=
  { entries := [], modified := m.modified }

/-- Wrapped `dict.__setitem__`: set the key, then `modified = True` in the
`finally` block. -/
def ModificationTrackingDict.setitem (m : ModificationTrackingDict)
    (k : String) (v : PyVal) : ModificationTrackingDict :=
  { entries := aset m.entries k v, modified := true }

/-- Wrapped `dict.__delitem__`: raises `KeyError` when the key is absent; the
`finally` block sets `modified = True` on both paths. -/
def ModificationTrackingDict.delitem (m : ModificationTrackingDict)
    (k : String) : Except PyErr Unit × ModificationTrackingDict :=
  ((if (alookup m.entries k).isSome then .ok () else .error .keyError),
   { entries := aerase m.entries k, modified := true })

/-- Wrapped `dict.clear`. -/
def ModificationTrackingDict.clear (m : ModificationTrackingDict) :
    ModificationTrackingDict :=
  { entries := [], modified := true }

/-- Wrapped `dict.pop`: return and remove the value when present; otherwise
return the default when one was given, else raise `KeyError`.  `modified` is
set on every path, including the raising one. -/
def ModificationTrackingDict.pop (m : ModificationTrackingDict)
    (k : String) (default : Option PyVal) : Except PyErr PyVal × ModificationTrackingDict :=
  ((match alookup m.entries k, default with
    | some v, _ => .ok v
    | none, some d => .ok d
    | none, none => .error .keyError),
   { entries := aerase m.entries k, modified := true })

/-- Wrapped `dict.popitem`: remove and return an arbitrary pair (modelled as
the first one); raises `KeyError` on an empty dict, still setting `modified`. -/
def ModificationTrackingDict.popitem (m : ModificationTrackingDict) :
    Except PyErr (String × PyVal) × ModificationTrackingDict :=
  match m.entries with
  | [] => (.error .keyError, { entries := [], modified := true })
  | p :: rest => (.ok p, { entries := rest, modified := true })

/-- Wrapped `dict.setdefault`: return the existing value, or bind the default
and return it; `modified` is set either way. -/
def ModificationTrackingDict.setdefault (m : ModificationTrackingDict)
    (k : String) (default : PyVal) : PyVal × ModificationTrackingDict :=
  match alookup m.entries k with
  | some v => (v, { entries := m.entries, modified := true })
  | none => (default, { entries := aset m.entries k default, modified := true })

/-- Wrapped `dict.update`: set every pair of the other mapping. -/
def ModificationTrackingDict.update (m : ModificationTrackingDict)
    (other : Entries) : ModificationTrackingDict :=
  { entries := other.foldl (fun es p => aset es p.1 p.2) m.entries,
    modified := true }

/-- `Session`: a `ModificationTrackingDict` whose `__slots__` additionally hold
the session id `sid` and the freshly-created flag `new`.  `__init__` fills the
dict from `data` (so `modified = false` after construction) and stores the two
extra attributes. -/
structure Session where
  entries : Entries
  modified : Bool
  sid : String
  new : Bool
deriving DecidableEq, Repr

/-- `Session.should_save`: `self.modified or self.new`. -/
def Session.should_save (s : Session) : Bool := s.modified || s.new

/-- `Session.copy` is the inherited `ModificationTrackingDict.copy`: a fresh
(empty-dict) instance receiving the `__slots__` attributes
`modified`, `sid`, `new` — and not the key/value pairs. -/
def Session.copy (s : Session) : Session :=
  { entries := [], modified := s.modified, sid := s.sid, new := s.new }

/-- One lowercase hex digit, as `'%x'` renders a digit of the digest. -/
def hexDigitChar (n : Nat) : Char :=
  if n < 10 then Char.ofNat (48 + n) else Char.ofNat (97 + (n - 10))

/-- Fixed-width big-endian lowercase hex rendering of a number (the shape of
`sha1(...).hexdigest()`, which always yields exactly 40 such digits). -/
def natToHexPadded : Nat → Nat → List Char
  | 0, _ => []
  | w + 1, v => natToHexPadded w (v / 16) ++ [hexDigitChar (v % 16)]

/-- `sha1(input).hexdigest()` at its interface: the 160-bit digest value,
rendered as 40 lowercase hex characters.  The digest value is the abstracted
`Nat` argument. -/
def sha1_hexdigest (digest : Nat) : String :=
  String.mk (natToHexPadded 40 (digest % 2 ^ 160))

/-- `generate_key(salt)`: `sha1('%s%s%s' % (salt, time(), _urandom())).hexdigest()`.
Salt, wall clock and entropy only feed the digest, so the whole hash input is
abstracted into the digest parameter `e`. -/
def generate_key (e : Nat) : String := sha1_hexdigest e

/-- Character class `[a-fA-F0-9]`. -/
def isHexChar (c : Char) : Bool :=
  decide ('0' ≤ c ∧ c ≤ '9') || decide ('a' ≤ c ∧ c ≤ 'f') ||
    decide ('A' ≤ c ∧ c ≤ 'F')

/-- Python `_sha1_re.match(key)` for the pattern `[a-fA-F0-9]` repeated 40
times between the two anchors, under Python `re` semantics: `match` anchors at
the start, the class consumes exactly the first 40 characters, and the final
anchor matches at the end of the string or just before a single newline that
ends the string. -/
def sha1ReMatch (key : String) : Bool :=
  let cs := key.data
  let pre := cs.take 40
  let rest := cs.drop 40
  pre.length == 40 && pre.all isHexChar && (rest == [] || rest == ['\n'])

/-- `SessionStore.is_valid_key`: `_sha1_re.match(key) is not None`. -/
def is_valid_key (key : String) : Bool := sha1ReMatch key

/-- `SessionStore.new`: `self.session_class({}, self.generate_key(), True)`. -/
def SessionStore.new (e : Nat) : Session :=
  { entries := [], modified := false, sid := generate_key e, new := true }

/-- Base-class `SessionStore.get`: `self.session_class({}, sid, True)` — the
requested sid is kept, no validation and no fresh key generation happen. -/
def SessionStore.get (sid : String) : Session :=
  { entries := [], modified := false, sid := sid, new := true }

/-- OS-level errors `os.unlink` can report. -/
inductive OSErr where
  | enoent
  | eperm
  | eacces
deriving DecidableEq, Repr

/-- The filesystem a `FilesystemSessionStore` acts on: file contents by path
(a file's content is the mapping the codec deserialises it to), plus an
environment oracle listing paths whose `unlink` fails with a given
non-missing-file OS error (permissions and the like).  Write errors are not
modelled: no claim concerns them and `save` does not handle them. -/
structure FS where
  files : List (String × Entries)
  unlinkErr : List (String × OSErr)
deriving DecidableEq, Repr

/-- `os.path.exists` on the modelled filesystem. -/
def FS.path_exists (fs : FS) (fn : String) : Bool :=
  (alookup fs.files fn).isSome

/-- Write (create or fully overwrite) a file, as `file(fn, 'wb')` + `dump`. -/
def FS.write (fs : FS) (fn : String) (content : Entries) : FS :=
  { files := aset fs.files fn content, unlinkErr := fs.unlinkErr }

/-- `os.unlink`: consult the error oracle, otherwise remove the file or report
that it does not exist. -/
def os_unlink (fs : FS) (fn : String) : Except OSErr FS :=
  match alookup fs.unlinkErr fn with
  | some e => .error e
  | none =>
    if (alookup fs.files fn).isSome then
      .ok { files := aerase fs.files fn, unlinkErr := fs.unlinkErr }
    else
      .error OSErr.enoent

/-- Python `os.path.join` restricted to two components (POSIX rules). -/
def path_join (a b : String) : String :=
  if b.data.head? = some '/' then b
  else if a = "" then b
  else if a.data.getLast? = some '/' then a ++ b
  else a ++ "/" ++ b

/-- `FilesystemSessionStore` configuration.  The filename template is a format
string with a single `%s` conversion, modelled as the text around it
(default: `werkzeug_%s.sess`). -/
structure FilesystemSessionStore where
  path : String
  template_head : String
  template_tail : String
deriving DecidableEq, Repr

/-- `get_session_filename`: `path.join(self.path, self.filename_template % sid)`. -/
def FilesystemSessionStore.get_session_filename
    (st : FilesystemSessionStore) (sid : String) : String :=
  path_join st.path (st.template_head ++ sid ++ st.template_tail)

/-- `FilesystemSessionStore.save`: serialise `dict(session)` to the file
computed from `session.sid`, overwriting it.  The session object itself is not
touched; the returned pair makes that frame condition explicit. -/
def FilesystemSessionStore.save (st : FilesystemSessionStore)
    (fs : FS) (s : Session) : FS × Session :=
  (fs.write (st.get_session_filename s.sid) s.entries, s)

/-- `SessionStore.save_if_modified` as inherited by the filesystem store:
`if session.should_save: self.save(session)`. -/
def FilesystemSessionStore.save_if_modified (st : FilesystemSessionStore)
    (fs : FS) (s : Session) : FS × Session :=
  if s.should_save then st.save fs s else (fs, s)

/-- `FilesystemSessionStore.delete`: `unlink` the file, swallowing `OSError`
(`except OSError: pass` — every OS error, not only a missing file). -/
def FilesystemSessionStore.delete (st : FilesystemSessionStore)
    (fs : FS) (s : Session) : Except OSErr FS × Session :=
  (match os_unlink fs (st.get_session_filename s.sid) with
   | .ok fs2 => .ok fs2
   | .error _ => .ok fs,
   s)

/-- `FilesystemSessionStore.get`: an invalid key or a missing file yields
`self.new()`; otherwise the file is deserialised and
`self.session_class(data, sid, False)` is returned. -/
def FilesystemSessionStore.get (st : FilesystemSessionStore)
    (fs : FS) (sid : String) (e : Nat) : Session :=
  let fn := st.get_session_filename sid
  if is_valid_key sid = false then SessionStore.new e
  else
    match alookup fs.files fn with
    | none => SessionStore.new e
    | some data => { entries := data, modified := false, sid := sid, new := false }

/-- Modelled from the spec: `parse_cookie` (from `werkzeug.utils`, not part of
the sources here) is the black-box collaborator that parses a cookie header
into name→value pairs; the header is modelled by its parsed form, so the
parser is the identity on that form. -/
def parse_cookie (header : List (String × String)) : List (String × String) :=
  header

/-- Modelled from the spec: `dump_cookie` (from `werkzeug.utils`, not part of
the sources here) is the black-box collaborator producing a `Set-Cookie`
header value carrying the given name and value; the configured cookie
attributes are forwarded verbatim and do not matter to any claim, so the
modelled value records just name and value. -/
def dump_cookie (name value : String) : String :=
  name ++ "=" ++ value

/-- The store the middleware drives, as the method table the middleware
dispatches into (`self.store.new/get/save/save_if_modified`). -/
structure StoreOps where
  new : Nat → Session
  get : FS → String → Nat → Session
  save : FS → Session → FS
  save_if_modified : FS → Session → FS

/-- The method table of a `FilesystemSessionStore`. -/
def FilesystemSessionStore.ops (st : FilesystemSessionStore) : StoreOps :=
  { new := SessionStore.new,
    get := st.get,
    save := fun fs s => (st.save fs s).1,
    save_if_modified := fun fs s => (st.save_if_modified fs s).1 }

/-- `SessionMiddleware` configuration relevant to the claims (the remaining
cookie attributes are forwarded verbatim to `dump_cookie`). -/
structure SessionMiddleware where
  cookie_name : String
deriving DecidableEq, Repr

/-- Invocations of the store's save path the middleware performs. -/
inductive SaveEvent where
  | save_at_headers
  | save_if_modified_at_close
deriving DecidableEq, Repr

/-- Observable outcome of one request through the middleware: the final
filesystem, the headers the middleware appended to the application's header
list, the save-path invocations in order, and the session as it stood at
header-finalization time. -/
structure RequestTrace where
  fs : FS
  appended_headers : List (String × String)
  save_events : List SaveEvent
  headerTimeSession : Session
deriving Repr

/-- Steps 1–2 of `SessionMiddleware.__call__`: parse the cookie header, and
resolve the session as `store.get(sid)` when the cookie is present, else
`store.new()`. -/
def SessionMiddleware.resolve_session (mw : SessionMiddleware) (ops : StoreOps)
    (fs : FS) (cookieHeader : List (String × String)) (e : Nat) : Session :=
  match alookup (parse_cookie cookieHeader) mw.cookie_name with
  | none => ops.new e
  | some sid => ops.get fs sid e

/-- The rest of the request lifecycle, from the session as the handler left it
at header-finalization time (`s1`).  `injecting_start_response` runs first: if
`s1.should_save` it calls `store.save` and appends one `Set-Cookie` header.
The handler may keep mutating the session while the body streams (`f2`), and
the `ClosingIterator` callback — modelled from the spec as a hook that fires
once after the body is fully produced — then calls `store.save_if_modified`. -/
def SessionMiddleware.finish_request (mw : SessionMiddleware) (ops : StoreOps)
    (fs : FS) (s1 : Session) (f2 : Session → Session) : RequestTrace :=
  let fs1 := if s1.should_save then ops.save fs s1 else fs
  let appended :=
    if s1.should_save then [("Set-Cookie", dump_cookie mw.cookie_name s1.sid)]
    else []
  let events :=
    (if s1.should_save then [SaveEvent.save_at_headers] else []) ++
      [SaveEvent.save_if_modified_at_close]
  let fs2 := ops.save_if_modified fs1 (f2 s1)
  { fs := fs2, appended_headers := appended, save_events := events,
    headerTimeSession := s1 }

/-- One full request through `SessionMiddleware.__call__`.  The downstream
handler is external; its effect on the session is split into `f1` (mutations
made before it finalizes status and headers) and `f2` (mutations made while
producing the body, after headers are out).  The WSGI protocol's normal shape
is assumed: `start_response` is invoked exactly once and the response iterator
is closed exactly once. -/
def SessionMiddleware.call (mw : SessionMiddleware) (ops : StoreOps) (fs : FS)
    (cookieHeader : List (String × String)) (f1 f2 : Session → Session)
    (e : Nat) : RequestTrace :=
  mw.finish_request ops fs (f1 (mw.resolve_session ops fs cookieHeader e)) f2

/-! ### Helper lemmas -/

theorem alookup_aset_self {α : Type} (l : List (String × α)) (key : String) (v : α) :
    alookup (aset l key v) key = some v := by
  induction l with
  | nil => simp [aset, alookup]
  | cons p rest ih =>
    by_cases h : p.1 = key <;> simp [aset, alookup, h, ih]

theorem natToHexPadded_length (w v : Nat) : (natToHexPadded w v).length = w := by
  induction w generalizing v with
  | zero => simp [natToHexPadded]
  | succ n ih => simp [natToHexPadded, ih]

theorem hexDigitChar_isHex (n : Nat) (h : n < 16) :
    isHexChar (hexDigitChar n) = true := by
  interval_cases n <;> decide

theorem natToHexPadded_all_hex (w v : Nat) :
    (natToHexPadded w v).all isHexChar = true := by
  induction w generalizing v with
  | zero => simp [natToHexPadded]
  | succ n ih =>
    simp only [natToHexPadded, List.all_append, List.all_cons, List.all_nil,
      Bool.and_eq_true, ih]
    exact ⟨trivial, hexDigitChar_isHex _ (Nat.mod_lt _ (by decide)), trivial⟩

theorem generate_key_data (e : Nat) :
    (generate_key e).data = natToHexPadded 40 (e % 2 ^ 160) := rfl

theorem generate_key_length (e : Nat) : (generate_key e).length = 40 := by
  simp [String.length, generate_key_data, natToHexPadded_length]

theorem generate_key_data_all_hex (e : Nat) :
    (generate_key e).data.all isHexChar = true := by
  simp [generate_key_data, natToHexPadded_all_hex]

theorem is_valid_key_generate_key (e : Nat) :
    is_valid_key (generate_key e) = true := by
  have hl : (generate_key e).data.length = 40 := by
    simp [generate_key_data, natToHexPadded_length]
  simp only [is_valid_key, sha1ReMatch]
  rw [List.take_of_length_le (by omega), List.drop_eq_nil_of_le (by omega)]
  simp [hl, generate_key_data_all_hex]

/-! ### The claims -/

/-- C1, evaluated at the failing input: `copy` of a tracking dict holding the
single pair `user ↦ alice` returns a container holding no pairs at all — only
the `__slots__` attributes (`modified`, and `sid`/`new` for `Session`) are
carried over, contradicting the documented "flat copy of the dict". -/
theorem C1_copy_drops_entries :
    (ModificationTrackingDict.copy
        { entries := [("user", PyVal.str "alice")], modified := false }).entries = [] ∧
    (ModificationTrackingDict.copy
        { entries := [("user", PyVal.str "alice")], modified := false }).modified = false ∧
    Session.copy
        { entries := [("user", PyVal.str "alice")], modified := false,
          sid := "deadbeef", new := true } =
      { entries := [], modified := false, sid := "deadbeef", new := true } := by
  decide

/-- C4: each wrapped mutating operation (`set key`, `delete key`, `clear`,
`pop`, `pop-arbitrary-item`, `set-default`, `bulk-update`) leaves
`modified = true` unconditionally in its post-state — also when the operation
conceptually changes nothing, and also on raising paths (the last conjunct
exhibits `pop` on a missing key without default: it raises `KeyError`, yet the
post-state still has `modified = true`). -/
theorem C4_mutators_set_modified (m : ModificationTrackingDict) (k : String)
    (v d : PyVal) (dflt : Option PyVal) (other : Entries) :
    (m.setitem k v).modified = true ∧
    (m.delitem k).2.modified = true ∧
    m.clear.modified = true ∧
    (m.pop k dflt).2.modified = true ∧
    m.popitem.2.modified = true ∧
    (m.setdefault k d).2.modified = true ∧
    (m.update other).modified = true ∧
    (ModificationTrackingDict.pop { entries := [], modified := false } k none).1 =
      .error PyErr.keyError ∧
    (ModificationTrackingDict.pop { entries := [], modified := false } k none).2.modified =
      true := by
  refine ⟨rfl, rfl, rfl, rfl, ?_, ?_, rfl, rfl, rfl⟩
  · cases h : m.entries <;> simp [ModificationTrackingDict.popitem, h]
  · cases h : alookup m.entries k <;> simp [ModificationTrackingDict.setdefault, h]

/-- C8: `new()` returns a session with empty data, `new = true`,
`modified = false` (hence `should_save = true` comes from freshness), and an
id that is the key generator's output: 40 hex characters, accepted by
`is_valid_key`. -/
theorem C8_new_session (e : Nat) :
    (SessionStore.new e).entries = [] ∧
    (SessionStore.new e).new = true ∧
    (SessionStore.new e).modified = false ∧
    (SessionStore.new e).should_save = true ∧
    (SessionStore.new e).sid = generate_key e ∧
    (SessionStore.new e).sid.length = 40 ∧
    (SessionStore.new e).sid.data.all isHexChar = true ∧
    is_valid_key (SessionStore.new e).sid = true := by
  refine ⟨rfl, rfl, rfl, rfl, rfl, ?_, ?_, ?_⟩
  · exact generate_key_length e
  · exact generate_key_data_all_hex e
  · exact is_valid_key_generate_key e

theorem C5_counterexample_trailing_newline :
    is_valid_key (String.mk (List.replicate 40 'a' ++ ['\n'])) = true ∧
    (String.mk (List.replicate 40 'a' ++ ['\n'])).length = 41 := by
  decide

theorem C5_is_valid_key_amended (key : String) :
    is_valid_key key = true ↔
      ((key.data.length = 40 ∧ key.data.all isHexChar = true) ∨
       (key.data.length = 41 ∧ (key.data.take 40).all isHexChar = true ∧
         key.data.drop 40 = ['\n'])) := by
  simp only [is_valid_key, sha1ReMatch, Bool.and_eq_true, Bool.or_eq_true,
    beq_iff_eq, List.length_take]
  constructor
  · rintro ⟨⟨hlen, hall⟩, hrest | hrest⟩
    · have h40 : key.data.length = 40 := by
        have := List.drop_eq_nil_iff.mp hrest
        omega
      left
      refine ⟨h40, ?_⟩
      rwa [List.take_of_length_le (by omega)] at hall
    · have h41 : key.data.length = 41 := by
        have := congrArg List.length hrest
        rw [List.length_drop, List.length_singleton] at this
        omega
      right
      exact ⟨h41, hall, hrest⟩
  · rintro (⟨h40, hall⟩ | ⟨h41, hall, hdrop⟩)
    · refine ⟨⟨by omega, ?_⟩, Or.inl (List.drop_eq_nil_iff.mpr (by omega))⟩
      rwa [List.take_of_length_le (by omega)]
    · exact ⟨⟨by omega, hall⟩, Or.inr hdrop⟩

/-- C2, refuted at a concrete input: with the backing file's path reporting a
permission error from `unlink`, `delete` still returns success — the OS error
does not propagate, contradicting the claim that only "file does not exist" is
swallowed. -/
theorem C2_counterexample_eperm_swallowed :
    os_unlink { files := [], unlinkErr := [("/tmp/werkzeug_sid1.sess", OSErr.eperm)] }
        (FilesystemSessionStore.get_session_filename
          { path := "/tmp", template_head := "werkzeug_", template_tail := ".sess" } "sid1") =
      .error OSErr.eperm ∧
    (FilesystemSessionStore.delete
        { path := "/tmp", template_head := "werkzeug_", template_tail := ".sess" }
        { files := [], unlinkErr := [("/tmp/werkzeug_sid1.sess", OSErr.eperm)] }
        { entries := [], modified := false, sid := "sid1", new := true }).1 =
      .ok { files := [], unlinkErr := [("/tmp/werkzeug_sid1.sess", OSErr.eperm)] } :=
  ⟨rfl, rfl⟩

/-- C2 (amended): `delete` removes the backing file when `unlink` succeeds and
treats every OS-level `unlink` failure — missing file and any other error such
as a permission error — as success, leaving the filesystem as it was; the call
never propagates an OS error. -/
theorem C2_delete_swallows_all_oserrors (st : FilesystemSessionStore)
    (fs : FS) (s : Session) :
    (st.delete fs s).1 =
      .ok (match os_unlink fs (st.get_session_filename s.sid) with
           | .ok fs2 => fs2
           | .error _ => fs) ∧
    (st.delete fs s).1.isOk = true := by
  cases h : os_unlink fs (st.get_session_filename s.sid) <;>
    simp [FilesystemSessionStore.delete, h, Except.isOk, Except.toBool]

/-- C3, refuted at a concrete input: the base-class default `get` called with
the invalid id `zzz` returns a session carrying the requested id itself — not
a freshly generated key (its id fails `is_valid_key` and is not 40
characters), so it does not behave exactly as `new()`. -/
theorem C3_counterexample_base_get_keeps_sid :
    (SessionStore.get "zzz").sid = "zzz" ∧
    is_valid_key (SessionStore.get "zzz").sid = false ∧
    (SessionStore.get "zzz").sid.length ≠ 40 := by
  decide

/-- C3 (amended): for `FilesystemSessionStore`, `get` with an id that fails
`is_valid_key` or has no backing file behaves exactly as `new()` — empty data,
`new = true`, and a freshly generated id; the base-class default `get`,
however, returns a session with empty data, `new = true`, and the requested id
itself (no validation, no fresh key). -/
theorem C3_get_fallback_amended (st : FilesystemSessionStore) (fs : FS)
    (sid : String) (e : Nat)
    (h : is_valid_key sid = false ∨
         alookup fs.files (st.get_session_filename sid) = none) :
    st.get fs sid e = SessionStore.new e ∧
    (st.get fs sid e).new = true ∧
    (st.get fs sid e).entries = [] ∧
    (st.get fs sid e).sid = generate_key e ∧
    SessionStore.get sid =
      { entries := [], modified := false, sid := sid, new := true } := by
  have hget : st.get fs sid e = SessionStore.new e := by
    rcases h with h | h
    · simp [FilesystemSessionStore.get, h]
    · by_cases hv : is_valid_key sid = false <;>
        simp [FilesystemSessionStore.get, hv, h]
  exact ⟨hget, by rw [hget]; rfl, by rw [hget]; rfl, by rw [hget]; rfl, rfl⟩

/-- C3 amended witness: the fallback at the concrete invalid id
`not-a-valid-id` over the empty filesystem. -/
theorem C3_get_fallback_amended_witness :
    (is_valid_key "not-a-valid-id" = false ∨
      alookup (FS.mk [] []).files
        (FilesystemSessionStore.get_session_filename
          { path := "/tmp", template_head := "werkzeug_", template_tail := ".sess" }
          "not-a-valid-id") = none) ∧
    (FilesystemSessionStore.get
        { path := "/tmp", template_head := "werkzeug_", template_tail := ".sess" }
        (FS.mk [] []) "not-a-valid-id" 0 = SessionStore.new 0 ∧
      (FilesystemSessionStore.get
        { path := "/tmp", template_head := "werkzeug_", template_tail := ".sess" }
        (FS.mk [] []) "not-a-valid-id" 0).new = true ∧
      (FilesystemSessionStore.get
        { path := "/tmp", template_head := "werkzeug_", template_tail := ".sess" }
        (FS.mk [] []) "not-a-valid-id" 0).entries = [] ∧
      (FilesystemSessionStore.get
        { path := "/tmp", template_head := "werkzeug_", template_tail := ".sess" }
        (FS.mk [] []) "not-a-valid-id" 0).sid = generate_key 0 ∧
      SessionStore.get "not-a-valid-id" =
        { entries := [], modified := false, sid := "not-a-valid-id", new := true }) :=
  ⟨Or.inl (by decide),
   C3_get_fallback_amended
     { path := "/tmp", template_head := "werkzeug_", template_tail := ".sess" }
     (FS.mk [] []) "not-a-valid-id" 0 (Or.inl (by decide))⟩

/-- C6, refuted at a concrete input: for a session whose sid `x` fails
`is_valid_key`, `save` writes the backing file, yet `get("x")` ignores it and
falls back to `new()` — the returned session has `new = true` and a different
sid, not the saved mapping under the saved id. -/
theorem C6_counterexample_invalid_sid :
    (FilesystemSessionStore.get
        { path := "/tmp", template_head := "werkzeug_", template_tail := ".sess" }
        ((FilesystemSessionStore.save
            { path := "/tmp", template_head := "werkzeug_", template_tail := ".sess" }
            { files := [], unlinkErr := [] }
            { entries := [("user", PyVal.str "alice")], modified := false,
              sid := "x", new := true }).1)
        "x" 0).new = true ∧
    (FilesystemSessionStore.get
        { path := "/tmp", template_head := "werkzeug_", template_tail := ".sess" }
        ((FilesystemSessionStore.save
            { path := "/tmp", template_head := "werkzeug_", template_tail := ".sess" }
            { files := [], unlinkErr := [] }
            { entries := [("user", PyVal.str "alice")], modified := false,
              sid := "x", new := true }).1)
        "x" 0).sid ≠ "x" ∧
    (FilesystemSessionStore.get
        { path := "/tmp", template_head := "werkzeug_", template_tail := ".sess" }
        ((FilesystemSessionStore.save
            { path := "/tmp", template_head := "werkzeug_", template_tail := ".sess" }
            { files := [], unlinkErr := [] }
            { entries := [("user", PyVal.str "alice")], modified := false,
              sid := "x", new := true }).1)
        "x" 0).entries = [] := by
  decide

/-- C6 (amended): the round trip holds for every session whose sid passes
`is_valid_key`: after `save(s)`, `get(s.sid)` returns a session whose data is
the saved mapping, whose id is `s.sid`, and whose `new` flag is false. -/
theorem C6_roundtrip_valid_sid (st : FilesystemSessionStore) (fs : FS)
    (s : Session) (e : Nat) (h : is_valid_key s.sid = true) :
    (st.get (st.save fs s).1 s.sid e).entries = s.entries ∧
    (st.get (st.save fs s).1 s.sid e).sid = s.sid ∧
    (st.get (st.save fs s).1 s.sid e).new = false ∧
    (st.get (st.save fs s).1 s.sid e).modified = false := by
  have hl : alookup ((st.save fs s).1).files (st.get_session_filename s.sid) =
      some s.entries := by
    simp [FilesystemSessionStore.save, FS.write, alookup_aset_self]
  simp [FilesystemSessionStore.get, h, hl]

/-- C6 amended witness: the round trip at a concrete 40-hex sid over the empty
filesystem. -/
theorem C6_roundtrip_valid_sid_witness :
    is_valid_key (String.mk (List.replicate 40 'a')) = true ∧
    ((FilesystemSessionStore.get
        { path := "/tmp", template_head := "werkzeug_", template_tail := ".sess" }
        ((FilesystemSessionStore.save
            { path := "/tmp", template_head := "werkzeug_", template_tail := ".sess" }
            { files := [], unlinkErr := [] }
            { entries := [("user", PyVal.str "alice")], modified := false,
              sid := String.mk (List.replicate 40 'a'), new := true }).1)
        (String.mk (List.replicate 40 'a')) 0).entries =
      [("user", PyVal.str "alice")] ∧
     (FilesystemSessionStore.get
        { path := "/tmp", template_head := "werkzeug_", template_tail := ".sess" }
        ((FilesystemSessionStore.save
            { path := "/tmp", template_head := "werkzeug_", template_tail := ".sess" }
            { files := [], unlinkErr := [] }
            { entries := [("user", PyVal.str "alice")], modified := false,
              sid := String.mk (List.replicate 40 'a'), new := true }).1)
        (String.mk (List.replicate 40 'a')) 0).sid = String.mk (List.replicate 40 'a') ∧
     (FilesystemSessionStore.get
        { path := "/tmp", template_head := "werkzeug_", template_tail := ".sess" }
        ((FilesystemSessionStore.save
            { path := "/tmp", template_head := "werkzeug_", template_tail := ".sess" }
            { files := [], unlinkErr := [] }
            { entries := [("user", PyVal.str "alice")], modified := false,
              sid := String.mk (List.replicate 40 'a'), new := true }).1)
        (String.mk (List.replicate 40 'a')) 0).new = false ∧
     (FilesystemSessionStore.get
        { path := "/tmp", template_head := "werkzeug_", template_tail := ".sess" }
        ((FilesystemSessionStore.save
            { path := "/tmp", template_head := "werkzeug_", template_tail := ".sess" }
            { files := [], unlinkErr := [] }
            { entries := [("user", PyVal.str "alice")], modified := false,
              sid := String.mk (List.replicate 40 'a'), new := true }).1)
        (String.mk (List.replicate 40 'a')) 0).modified = false) :=
  ⟨by decide,
   C6_roundtrip_valid_sid
     { path := "/tmp", template_head := "werkzeug_", template_tail := ".sess" }
     { files := [], unlinkErr := [] }
     { entries := [("user", PyVal.str "alice")], modified := false,
       sid := String.mk (List.replicate 40 'a'), new := true }
     0 (by decide)⟩

/-- C9: `save`, `save_if_modified` and `delete` leave the in-memory session
object entirely unchanged — all of `entries`, `modified`, `sid`, `new` keep
their values; in particular `save` never clears `modified`, so `should_save`
keeps its value (and stays true when it was true). -/
theorem C9_store_ops_frame (st : FilesystemSessionStore) (fs : FS) (s : Session) :
    (st.save fs s).2 = s ∧
    (st.save_if_modified fs s).2 = s ∧
    (st.delete fs s).2 = s ∧
    (st.save fs s).2.modified = s.modified ∧
    (st.save fs s).2.should_save = s.should_save := by
  refine ⟨rfl, ?_, rfl, rfl, rfl⟩
  cases h : s.should_save <;>
    simp [FilesystemSessionStore.save_if_modified, FilesystemSessionStore.save, h]

/-- C10: `save` writes the session's data to the path obtained by substituting
`sid` into the filename template and joining it under the store directory,
with no `is_valid_key` check: even a session whose sid fails validation
(including one containing path separators) is written to the path derived from
that sid. -/
theorem C10_save_unvalidated (st : FilesystemSessionStore) (fs : FS)
    (s : Session) (h : is_valid_key s.sid = false) :
    alookup ((st.save fs s).1).files
        (path_join st.path (st.template_head ++ s.sid ++ st.template_tail)) =
      some s.entries := by
  simp [FilesystemSessionStore.save, FS.write,
    FilesystemSessionStore.get_session_filename, alookup_aset_self]

/-- C10 witness: a sid carrying path separators (`../../etc/passwd`) fails
validation and is still written at the path derived from it. -/
theorem C10_save_unvalidated_witness :
    is_valid_key "../../etc/passwd" = false ∧
    alookup ((FilesystemSessionStore.save
        { path := "/tmp", template_head := "werkzeug_", template_tail := ".sess" }
        { files := [], unlinkErr := [] }
        { entries := [("user", PyVal.str "alice")], modified := false,
          sid := "../../etc/passwd", new := true }).1).files
        (path_join "/tmp" ("werkzeug_" ++ "../../etc/passwd" ++ ".sess")) =
      some [("user", PyVal.str "alice")] :=
  ⟨by decide,
   C10_save_unvalidated
     { path := "/tmp", template_head := "werkzeug_", template_tail := ".sess" }
     { files := [], unlinkErr := [] }
     { entries := [("user", PyVal.str "alice")], modified := false,
       sid := "../../etc/passwd", new := true }
     (by decide)⟩

/-- C7: per request — with `start_response` invoked once and the response
iterator closed once, as the WSGI protocol prescribes — the middleware appends
the `Set-Cookie` header carrying the session's id exactly when `should_save`
holds at header-finalization time, appends at most one such header, and
invokes the store's save path once or twice: `store.save` at header time
exactly when `should_save` held then, and `store.save_if_modified` once after
the body is fully produced. -/
theorem C7_middleware_cookie_and_saves (mw : SessionMiddleware) (ops : StoreOps)
    (fs : FS) (cookieHeader : List (String × String)) (f1 f2 : Session → Session)
    (e : Nat) :
    ((mw.call ops fs cookieHeader f1 f2 e).appended_headers =
      (if (mw.call ops fs cookieHeader f1 f2 e).headerTimeSession.should_save then
        [("Set-Cookie", dump_cookie mw.cookie_name
            (mw.call ops fs cookieHeader f1 f2 e).headerTimeSession.sid)]
      else [])) ∧
    (mw.call ops fs cookieHeader f1 f2 e).appended_headers.length ≤ 1 ∧
    ((mw.call ops fs cookieHeader f1 f2 e).save_events =
      (if (mw.call ops fs cookieHeader f1 f2 e).headerTimeSession.should_save then
        [SaveEvent.save_at_headers] else []) ++
        [SaveEvent.save_if_modified_at_close]) ∧
    1 ≤ (mw.call ops fs cookieHeader f1 f2 e).save_events.length ∧
    (mw.call ops fs cookieHeader f1 f2 e).save_events.length ≤ 2 := by
  cases h : (f1 (mw.resolve_session ops fs cookieHeader e)).should_save <;>
    simp [SessionMiddleware.call, SessionMiddleware.finish_request, h]
